import Mathlib

/-!
Shallow embedding of the intelligence layer of the Aureum music API:
the activity store (session/store.py), the recommendation engine
(recommend/engine.py, recommend/heuristics.py) and the cache manifest
generator (cache/manifest.py), together with the fail-open Volatile
Store wrappers (redis/client.py).

Modelling conventions:
- Python floats are modelled by exact rationals; every float literal in
  the modelled code (1.5, 1.2, 1.3, 0.7) is written with mkRat.
- The Volatile Store (Redis) is a record of typed key/value maps plus an
  availability flag; an unavailable store makes every safe wrapper return
  its fallback value, exactly as is_redis_available gating does.
- Python exceptions are modelled by an explicit Boolean failure-injection
  argument on the functions whose bodies sit inside a try/except block;
  the except branch of the source is the if-branch taken on that flag.
- Python list.sort is stable; it is modelled by a structurally recursive
  stable insertion sort (ssort), which computes the same list as any
  stable sort with the same comparator.
- json round-trips through Redis lists are modelled by EncodedItem: a
  well-formed entry carries the decoded Activity, a malformed one is junk
  that decoders skip or fail on exactly where the source does.
-/

namespace Aureum

/-! ### Configuration constants (core/config.py) -/

def recommendation_limit : Nat := 20

def recent_activity_window : Nat := 50

def session_ttl : Nat := 86400

def event_ttl : Nat := 604800

def cache_prediction_hours : Nat := 24

def must_cache_size : Nat := 10

def likely_next_size : Nat := 20

/-! ### String helpers modelling Python primitives -/

/-- Python str.lower() (all strings in the modelled code are ASCII). -/
def lowerStr (s : String) : String := ⟨s.data.map Char.toLower⟩

/-- Python substring containment: needle in hay. -/
def strContains (hay needle : String) : Bool :=
  hay.data.tails.any (fun t => needle.data.isPrefixOf t)

/-- Characters of s before the first occurrence of sep. -/
def headSplitAux (sep : List Char) : List Char → List Char
  | [] => []
  | c :: cs => if sep.isPrefixOf (c :: cs) then [] else c :: headSplitAux sep cs

/-- Python s.split(sep)[0] for a non-empty separator. -/
def headSplit (s sep : String) : String := ⟨headSplitAux sep.data s.data⟩

/-- Python truthiness of an optional string: None and the empty string
are falsy. -/
def truthyStr : Option String → Bool
  | none => false
  | some s => !(s == "")

/-! ### Stable sort modelling Python list.sort -/

/-- Insert x in front of the first element y with le x y. -/
def sinsert (le : α → α → Bool) (x : α) : List α → List α
  | [] => [x]
  | y :: ys => if le x y then x :: y :: ys else y :: sinsert le x ys

/-- Stable insertion sort: computes the unique stable ordering for the
comparator le, the same list Python list.sort produces. -/
def ssort (le : α → α → Bool) : List α → List α
  | [] => []
  | x :: xs => sinsert le x (ssort le xs)

/-! ### Data model -/

/-- A track summary as produced by core/ytmusic_client.py search_songs. -/
structure Track where
  videoId : String
  title : String
  artists : String
  thumbnail : String
  duration : String
  duration_seconds : Nat
deriving DecidableEq

/-- A compact recent-activity summary pushed by the session store:
the dict with keys video_id, event_type, timestamp. video_id is an
Option because engine-side consumers read it with dict.get. -/
structure Activity where
  video_id : Option String
  event_type : String
  timestamp : String
deriving DecidableEq

/-- An entry of a Redis list: a well-formed json encoding of an Activity
or a malformed string that json.loads rejects. -/
inductive EncodedItem where
  | act : Activity → EncodedItem
  | junk : String → EncodedItem
deriving DecidableEq

/-- Session metadata stored under session:{id} (session/store.py). -/
structure SessionData where
  session_id : String
  user_id : Option String
  device_info : Option String
  location : Option String
  started_at : String
  event_count : Nat
  last_event_at : Option String
deriving DecidableEq

/-- One recorded event stored under event:{sid}:{eid}. -/
structure EventData where
  session_id : String
  event_type : String
  video_id : Option String
  timestamp : String
  user_id : Option String
deriving DecidableEq

/-- The Volatile Store: typed key/value maps plus the reachability flag.
available = false models the store being unreachable for every access
attempt (ping failure or connection errors on use); every safe wrapper
then degrades to its fallback value. -/
structure RedisState where
  available : Bool
  sessions : String → Option SessionData
  events : String → Option EventData
  kv : String → Option String
  activity : String → List EncodedItem
  activity_ttl : String → Option Nat

/-- Pointwise update of a key/value map. -/
def setFun (f : String → α) (k : String) (v : α) : String → α :=
  fun q => if q = k then v else f q

/-! ### Safe Redis wrappers (redis/client.py)

safe_redis_set returns False instead of raising when the store is
unreachable; safe_redis_get returns None. The typed variants below
specialise the single generic wrapper of the source to the three key
namespaces it is used with. -/

def safe_set_session (st : RedisState) (k : String) (v : SessionData) :
    RedisState × Bool :=
  if st.available then
    ({ st with sessions := setFun st.sessions k (some v) }, true)
  else (st, false)

def safe_set_event (st : RedisState) (k : String) (v : EventData) :
    RedisState × Bool :=
  if st.available then
    ({ st with events := setFun st.events k (some v) }, true)
  else (st, false)

def safe_set_kv (st : RedisState) (k v : String) : RedisState × Bool :=
  if st.available then
    ({ st with kv := setFun st.kv k (some v) }, true)
  else (st, false)

def safe_get_session (st : RedisState) (k : String) : Option SessionData :=
  if st.available then st.sessions k else none

/-! ### Heuristics (recommend/heuristics.py) -/

def ARTIST_SIMILARITY : List (String × List String) :=
  [("drake", ["kendrick lamar", "j. cole", "travis scott", "post malone"]),
   ("taylor swift", ["olivia rodrigo", "sabrina carpenter", "lana del rey"]),
   ("weeknd", ["bruno mars", "david guetta", "calvin harris"]),
   ("bad bunny", ["j balvin", "ozuna", "anuel aa"]),
   ("ed sheeran", ["james arthur", "passenger", "calum scott"]),
   ("punjabi", ["diljit dosanjh", "ap dhillon", "shubh", "karan aujla"])]

def TIME_GENRES : List (String × List String) :=
  [("morning", ["pop", "upbeat", "motivational"]),
   ("afternoon", ["rock", "hip hop", "electronic"]),
   ("evening", ["chill", "lofi", "r&b"]),
   ("night", ["jazz", "ambient", "classical"])]

/-- get_similar_artists: exact key match, then fuzzy containment match in
insertion order; the final search fallback of the source returns an empty
list on every path, so both of its branches collapse to []. -/
def get_similar_artists (artist : String) : List String :=
  let al := lowerStr artist
  match ARTIST_SIMILARITY.find? (fun p => p.1 == al) with
  | some p => p.2
  | none =>
    match ARTIST_SIMILARITY.find? (fun p => strContains al p.1 || strContains p.1 al) with
    | some p => p.2
    | none => []

def genre_terms : List (String × String) :=
  [("pop", "pop music"), ("rock", "rock music"), ("hip hop", "hip hop"),
   ("electronic", "electronic music"), ("punjabi", "punjabi music"),
   ("lofi", "lofi beats"), ("jazz", "jazz music")]

/-- The Catalog Service search function search_songs(query, limit); it
never raises (it catches internally and returns []). -/
abbrev SearchFun := String → Nat → List Track

def get_genre_based_recommendations (search : SearchFun) (genre : String)
    (limit : Nat) : List Track :=
  search ((genre_terms.lookup (lowerStr genre)).getD genre) limit

def time_slot (hour : Nat) : String :=
  if 6 ≤ hour ∧ hour < 12 then "morning"
  else if 12 ≤ hour ∧ hour < 18 then "afternoon"
  else if 18 ≤ hour ∧ hour < 22 then "evening"
  else "night"

def get_time_based_recommendations (search : SearchFun) (hour : Nat)
    (limit : Nat) : List Track :=
  let genres := (TIME_GENRES.lookup (time_slot hour)).getD ["pop"]
  let recommendations :=
    (genres.take 2).foldl
      (fun acc g => acc ++ get_genre_based_recommendations search g (limit / 2)) []
  recommendations.take limit

/-- Python l[-10:]. -/
def lastN (n : Nat) (l : List α) : List α := l.drop (l.length - n)

/-- calculate_skip_velocity (recommend/heuristics.py). -/
def calculate_skip_velocity (recent_activity : List Activity) : ℚ :=
  if recent_activity.length < 3 then 0
  else
    let recent := lastN 10 recent_activity
    let skip_count := (recent.filter (fun e => e.event_type == "skip")).length
    let play_count := (recent.filter (fun e => e.event_type == "play")).length
    let total := skip_count + play_count
    if total = 0 then 0 else (skip_count : ℚ) / (total : ℚ)

/-! ### Recommendation engine (recommend/engine.py) -/

/-- The current_track dict passed to the engine; each field is an Option
because the source reads the keys with dict.get / membership tests. -/
structure CurrentTrackInfo where
  artists : Option String
  video_id : Option String
deriving DecidableEq

structure TasteProfile where
  preferred_genres : Option (List String)
  mood : Option String
deriving DecidableEq

/-- The context dict built by _extract_context. -/
structure Context where
  current_artist : Option String
  recent_artists : List String
  genres : List String
  skip_velocity : ℚ
  time_of_day : Nat
  mood : String
deriving DecidableEq

/-- current_track["artists"].split(", ")[0] if the key exists and the
string is truthy, else None. -/
def extract_current_artist (current_track : Option CurrentTrackInfo) :
    Option String :=
  match current_track with
  | none => none
  | some t =>
    match t.artists with
    | none => none
    | some s => if s == "" then none else some (headSplit s ", ")

def extract_context (current_track : Option CurrentTrackInfo)
    (recent_activity : List Activity) (taste_profile : Option TasteProfile)
    (hour : Nat) : Context :=
  { current_artist := extract_current_artist current_track
    recent_artists := []
    genres :=
      match taste_profile with
      | none => []
      | some tp => tp.preferred_genres.getD []
    skip_velocity :=
      if recent_activity.isEmpty then 0
      else calculate_skip_velocity recent_activity
    time_of_day := hour
    mood :=
      match taste_profile with
      | none => "neutral"
      | some tp => tp.mood.getD "neutral" }

/-- Append each element of new to acc unless an equal element is already
present: the for-loop with the membership guard used by tier 1 of
_generate_recommendations and by _get_generic_must_cache. -/
def dedupAppend [DecidableEq α] (acc new : List α) : List α :=
  new.foldl (fun ts t => if t ∈ ts then ts else ts ++ [t]) acc

/-- _generate_recommendations: similar-artist tier, genre tier, time tier
and the popular-music fallback, truncated to limit * 2. -/
def generate_recommendations (search : SearchFun) (ctx : Context)
    (limit : Nat) : List Track :=
  let tracks : List Track := []
  let tracks :=
    if truthyStr ctx.current_artist then
      ((get_similar_artists (ctx.current_artist.getD "")).take 3).foldl
        (fun acc artist => dedupAppend acc (search artist 5)) tracks
    else tracks
  let tracks :=
    if ctx.genres.isEmpty then tracks
    else
      (ctx.genres.take 2).foldl
        (fun acc g => acc ++ get_genre_based_recommendations search g 5) tracks
  let tracks := tracks ++ get_time_based_recommendations search ctx.time_of_day 5
  let tracks :=
    if tracks.length < limit then tracks ++ search "popular music" (limit - tracks.length)
    else tracks
  tracks.take (limit * 2)

/-- A track dict after _rank_and_label_tracks added score and label. -/
structure ScoredTrack where
  track : Track
  score : ℚ
  label : Option String
deriving DecidableEq

/-- Stage 1 of the loop body of _rank_and_label_tracks: the
current-artist boost and label. The initial score is 1.0, the initial
label is None; mkRat 3 2 stands for the float literal 1.5. -/
def artist_stage (ctx : Context) (t : Track) : ℚ × Option String :=
  let s0 : ℚ := 1
  let l0 : Option String := none
  if truthyStr ctx.current_artist && strContains t.artists (ctx.current_artist.getD "") then
    (s0 * mkRat 3 2, some "More by this artist")
  else if l0.isNone && truthyStr ctx.current_artist then
    (s0, some "Similar artist")
  else (s0, l0)

/-- Stage 2: the time-of-day labels, only applied when no label is set. -/
def time_stage (ctx : Context) (l : Option String) : Option String :=
  if 6 ≤ ctx.time_of_day ∧ ctx.time_of_day < 12 then
    (if l.isNone then some "Morning vibes" else l)
  else if 18 ≤ ctx.time_of_day ∧ ctx.time_of_day < 22 then
    (if l.isNone then some "Evening chill" else l)
  else l

/-- Stage 3: the punjabi boost and label; mkRat 6 5 stands for the float
literal 1.2. -/
def punjabi_stage (t : Track) (s : ℚ) (l : Option String) : ℚ × Option String :=
  if strContains (lowerStr t.title) "punjabi" || strContains (lowerStr t.artists) "punjabi" then
    (s * mkRat 6 5, if l.isNone then some "Punjabi vibes" else l)
  else (s, l)

/-- Stage 4: the skip-velocity short-track boost; mkRat 13 10 and
mkRat 7 10 stand for the float literals 1.3 and 0.7. -/
def velocity_stage (ctx : Context) (t : Track) (s : ℚ) : ℚ :=
  if mkRat 7 10 < ctx.skip_velocity then
    (if t.duration_seconds < 180 then s * mkRat 13 10 else s)
  else s

/-- Scoring and labelling of a single track inside the loop of
_rank_and_label_tracks: the four stages applied in source order. -/
def score_and_label (ctx : Context) (t : Track) : ScoredTrack :=
  let p1 := artist_stage ctx t
  let l2 := time_stage ctx p1.2
  let p3 := punjabi_stage t p1.1 l2
  { track := t, score := velocity_stage ctx t p3.1, label := p3.2 }

/-- The comparator of ranked.sort(key=score, reverse=True): a is allowed
before b when the score of a is at least the score of b. -/
def scoreLE (a b : ScoredTrack) : Bool := decide (b.score ≤ a.score)

/-- _rank_and_label_tracks: score and label every track, then stable sort
by descending score. -/
def rank_and_label_tracks (ctx : Context) (tracks : List Track) :
    List ScoredTrack :=
  ssort scoreLE (tracks.map (score_and_label ctx))

/-- A value of the heterogeneous context dict echoed in responses. -/
inductive CtxVal where
  | nullv : CtxVal
  | str : String → CtxVal
  | strlist : List String → CtxVal
  | num : ℚ → CtxVal
  | natv : Nat → CtxVal
deriving DecidableEq

/-- The context dict as it appears in a RecommendationResponse. -/
def context_dict (c : Context) : List (String × CtxVal) :=
  [("current_artist",
     match c.current_artist with | none => CtxVal.nullv | some a => CtxVal.str a),
   ("recent_artists", CtxVal.strlist c.recent_artists),
   ("genres", CtxVal.strlist c.genres),
   ("skip_velocity", CtxVal.num c.skip_velocity),
   ("time_of_day", CtxVal.natv c.time_of_day),
   ("mood", CtxVal.str c.mood)]

structure RecommendationResponse where
  tracks : List ScoredTrack
  labels : List String
  context : List (String × CtxVal)
  generated_at : String
deriving DecidableEq

/-- Decode one Redis list entry with json.loads. -/
def decodeItem : EncodedItem → Option Activity
  | EncodedItem.act a => some a
  | EncodedItem.junk _ => none

/-- The list comprehension [json.loads(act) for act in activities]: one
malformed entry fails the whole batch. -/
def decode_all (items : List EncodedItem) : Option (List Activity) :=
  items.mapM decodeItem

/-- _get_user_recent_activity: lrange over the whole list, decoded; any
failure (store unreachable or malformed entry) degrades to []. -/
def get_user_recent_activity (st : RedisState) (uid : String) :
    List Activity :=
  if st.available then
    (decode_all (st.activity ("recent_activity:" ++ uid))).getD []
  else []

/-- The context the engine works with: recent activity is fetched from
the store when a truthy user id is given and none was provided. -/
def recommend_ctx (st : RedisState) (hour : Nat)
    (current_track : Option CurrentTrackInfo)
    (recent_activity : List Activity) (user_id : Option String)
    (taste_profile : Option TasteProfile) : Context :=
  let recent_activity :=
    if truthyStr user_id && recent_activity.isEmpty then
      get_user_recent_activity st (user_id.getD "")
    else recent_activity
  extract_context current_track recent_activity taste_profile hour

/-- The try-block body of get_contextual_recommendations. -/
def recommend_body (search : SearchFun) (st : RedisState) (hour : Nat)
    (now : String) (current_track : Option CurrentTrackInfo)
    (recent_activity : List Activity) (user_id : Option String)
    (taste_profile : Option TasteProfile) (limit : Nat) :
    RecommendationResponse :=
  let ctx := recommend_ctx st hour current_track recent_activity user_id taste_profile
  let ranked := rank_and_label_tracks ctx (generate_recommendations search ctx limit)
  { tracks := ranked.take limit
    labels := (ranked.take limit).filterMap (fun s => s.label)
    context := context_dict ctx
    generated_at := now }

/-- get_contextual_recommendations. raised = true injects an exception
inside the try block; the else-free except branch of the source returns
the empty response with an empty context dict. -/
def get_contextual_recommendations (search : SearchFun) (st : RedisState)
    (raised : Bool) (hour : Nat) (now : String)
    (current_track : Option CurrentTrackInfo)
    (recent_activity : List Activity)
    (user_id : Option String) (taste_profile : Option TasteProfile)
    (limit? : Option Nat) : RecommendationResponse :=
  let limit := limit?.getD recommendation_limit
  if raised then
    { tracks := [], labels := [], context := [], generated_at := now }
  else
    recommend_body search st hour now current_track recent_activity user_id
      taste_profile limit

/-! ### Activity store (session/store.py) -/

/-- start_session: builds the metadata, best-effort persists it and the
user link, and always returns the freshly generated session id. -/
def start_session (st : RedisState) (fresh_id : String)
    (user_id : Option String) (device_info : Option String)
    (location : Option String) (now : String) : RedisState × String :=
  let sd : SessionData :=
    { session_id := fresh_id, user_id := user_id, device_info := device_info
      location := location, started_at := now, event_count := 0
      last_event_at := none }
  let st := (safe_set_session st ("session:" ++ fresh_id) sd).1
  let st :=
    match user_id with
    | some uid =>
      if truthyStr (some uid) then
        (safe_set_kv st ("user_sessions:" ++ uid) fresh_id).1
      else st
    | none => st
  (st, fresh_id)

/-- _update_user_recent_activity: lpush of the compact summary, ltrim to
the capacity, TTL refresh; store failures are absorbed. -/
def update_user_recent_activity (st : RedisState) (uid vid etype ts : String) :
    RedisState :=
  if st.available then
    let key := "recent_activity:" ++ uid
    let newlist :=
      (EncodedItem.act { video_id := some vid, event_type := etype, timestamp := ts }
        :: st.activity key).take recent_activity_window
    { st with
      activity := setFun st.activity key newlist
      activity_ttl := setFun st.activity_ttl key (some event_ttl) }
  else st

/-- record_event: store the event, then (only when that write reported
success) bump the session metadata and, for play/skip events that carry a
track and a user, push the compact recent-activity summary. The returned
Boolean is the ack given to the caller. -/
def record_event (st : RedisState) (session_id event_type : String)
    (video_id : Option String) (timestamp? : Option String)
    (user_id : Option String) (now : String) (fresh_event_id : String) :
    RedisState × Bool :=
  let timestamp := timestamp?.getD now
  let ev : EventData :=
    { session_id := session_id, event_type := event_type, video_id := video_id
      timestamp := timestamp, user_id := user_id }
  let r := safe_set_event st ("event:" ++ session_id ++ ":" ++ fresh_event_id) ev
  let st := r.1
  let success := r.2
  if success then
    let st :=
      match safe_get_session st ("session:" ++ session_id) with
      | some sd =>
        (safe_set_session st ("session:" ++ session_id)
          { sd with event_count := sd.event_count + 1
                    last_event_at := some timestamp }).1
      | none => st
    let st :=
      if truthyStr user_id && truthyStr video_id &&
          (event_type == "play" || event_type == "skip") then
        update_user_recent_activity st (user_id.getD "") (video_id.getD "")
          event_type timestamp
      else st
    (st, success)
  else (st, success)

/-! ### Cache manifest generator (cache/manifest.py) -/

/-- An entry of must_cache: the personalised path appends small
videoId/reason dicts, the generic path appends full search dicts. -/
inductive CacheTrack where
  | personal : String → String → CacheTrack
  | fromSearch : Track → CacheTrack
deriving DecidableEq

/-- The track id of a must_cache entry. -/
def CacheTrack.vid : CacheTrack → String
  | CacheTrack.personal v _ => v
  | CacheTrack.fromSearch t => t.videoId

/-- An entry of likely_next: engine output or generic search output. -/
inductive LikelyTrack where
  | scored : ScoredTrack → LikelyTrack
  | fromSearch : Track → LikelyTrack
deriving DecidableEq

/-- Increment the count of v, keeping dict insertion order. -/
def bumpCount : List (String × Nat) → String → List (String × Nat)
  | [], v => [(v, 1)]
  | (k, n) :: rest, v =>
    if k = v then (k, n + 1) :: rest else (k, n) :: bumpCount rest v

/-- The video_counts dict: plays per truthy video id over the decoded
entries; malformed entries are skipped one by one. -/
def count_plays (items : List EncodedItem) : List (String × Nat) :=
  items.foldl
    (fun acc it =>
      match it with
      | EncodedItem.act a =>
        match a.video_id with
        | some v =>
          if v ≠ "" ∧ a.event_type = "play" then bumpCount acc v else acc
        | none => acc
      | EncodedItem.junk _ => acc)
    []

/-- The comparator of sorted(counts, key=count, reverse=True). -/
def countLE (a b : String × Nat) : Bool := decide (b.2 ≤ a.2)

/-- _get_generic_must_cache: two genre buckets of three search hits each
with the in-loop duplicate guard, truncated to must_cache_size. -/
def get_generic_must_cache (search : SearchFun) : List Track :=
  let popular_genres := ["pop", "hip hop", "punjabi", "electronic"]
  let tracks :=
    (popular_genres.take 2).foldl
      (fun acc g => dedupAppend acc (search (g ++ " hits 2024") 3)) []
  tracks.take must_cache_size

/-- _get_personalized_must_cache: top five tracks by play count over the
last 50 activity entries, padded with the first three generic tracks when
fewer than three qualified, truncated to must_cache_size. An unreachable
store makes the personalised part empty. -/
def get_personalized_must_cache (search : SearchFun) (st : RedisState)
    (uid : String) : List CacheTrack :=
  let tracks : List CacheTrack :=
    if st.available then
      let activities := (st.activity ("recent_activity:" ++ uid)).take 50
      let sorted_videos := ssort countLE (count_plays activities)
      (sorted_videos.take 5).map
        (fun p => CacheTrack.personal p.1
          ("Played " ++ toString p.2 ++ " times"))
    else []
  let tracks :=
    if tracks.length < 3 then
      tracks ++ ((get_generic_must_cache search).take 3).map CacheTrack.fromSearch
    else tracks
  tracks.take must_cache_size

/-- _get_generic_likely_next. -/
def get_generic_likely_next (search : SearchFun) : List Track :=
  search "trending music" likely_next_size

/-- _get_likely_next_tracks: seed the engine with the play event found
first in the reversed recent-activity list, else fall back to the generic
list. engineRaised injects an exception into the engine call. -/
def get_likely_next_tracks (search : SearchFun) (st : RedisState)
    (engineRaised : Bool) (hour : Nat) (now : String) (uid : String) :
    List LikelyTrack :=
  let recent := get_user_recent_activity st uid
  if recent.isEmpty then
    (get_generic_likely_next search).map LikelyTrack.fromSearch
  else
    match recent.reverse.find? (fun a => a.event_type == "play") with
    | some a =>
      let resp := get_contextual_recommendations search st engineRaised hour now
        (some { artists := none, video_id := a.video_id }) recent (some uid)
        none (some likely_next_size)
      resp.tracks.map LikelyTrack.scored
    | none => (get_generic_likely_next search).map LikelyTrack.fromSearch

structure CacheManifestResponse where
  must_cache : List CacheTrack
  likely_next : List LikelyTrack
  expires_at : Nat

/-- generate_manifest. now is the generation time in epoch seconds.
raised = true injects an exception inside the outer try block; the except
branch returns the empty manifest with the one-hour expiry. -/
def generate_manifest (search : SearchFun) (st : RedisState)
    (raised engineRaised : Bool) (hour : Nat) (nowStr : String) (now : Nat)
    (user_id : Option String) : CacheManifestResponse :=
  if raised then
    { must_cache := [], likely_next := [], expires_at := now + 3600 }
  else
    let must_cache :=
      if truthyStr user_id then
        get_personalized_must_cache search st (user_id.getD "")
      else (get_generic_must_cache search).map CacheTrack.fromSearch
    let likely_next :=
      if truthyStr user_id then
        get_likely_next_tracks search st engineRaised hour nowStr (user_id.getD "")
      else (get_generic_likely_next search).map LikelyTrack.fromSearch
    { must_cache := must_cache.take must_cache_size
      likely_next := likely_next.take likely_next_size
      expires_at := now + cache_prediction_hours * 3600 }

/-! ### Concrete fixtures used by counterexamples, scenarios and witnesses -/

def tA : Track := ⟨"vidA", "Song A", "Artist A", "", "3:20", 200⟩

def tB : Track := ⟨"vidB", "Song B", "Artist B", "", "3:30", 210⟩

def tG1 : Track := ⟨"g1", "Hit One", "P One", "", "3:00", 180⟩

def tG2 : Track := ⟨"g2", "Hit Two", "P Two", "", "3:05", 185⟩

def tG3 : Track := ⟨"g3", "Hit Three", "P Three", "", "3:10", 190⟩

/-- A catalog that finds nothing (every tier comes back empty). -/
def emptySearch : SearchFun := fun _ _ => []

/-- A catalog that answers only the query "pop music" with two tracks. -/
def searchPop : SearchFun := fun q _ => if q = "pop music" then [tA, tB] else []

/-- A catalog that answers only the query "pop music" with one track. -/
def searchPopOnly : SearchFun := fun q _ => if q = "pop music" then [tA] else []

/-- A catalog that answers only the generic must-cache query. -/
def searchHits : SearchFun := fun q _ => if q = "pop hits 2024" then [tG1, tG2, tG3] else []

/-- An empty, reachable store. -/
def st0 : RedisState :=
  ⟨true, fun _ => none, fun _ => none, fun _ => none, fun _ => [], fun _ => none⟩

/-- An empty, unreachable store. -/
def stDown : RedisState :=
  ⟨false, fun _ => none, fun _ => none, fun _ => none, fun _ => [], fun _ => none⟩

/-- A recommendation run at 13:00 with a pop taste profile and two
catalog hits: both returned tracks keep score 1 and carry no label. -/
def respAfternoon : RecommendationResponse :=
  get_contextual_recommendations searchPop st0 false 13 "T0"
    none [] none (some ⟨some ["pop"], none⟩) (some 5)

/-- A recommendation run whose try block raised. -/
def respRaised : RecommendationResponse :=
  get_contextual_recommendations searchPop st0 true 13 "T0"
    none [] none none (some 5)

/-- A recommendation run at 08:00 where the genre tier and the morning
time tier both issue the query "pop music", duplicating a track. -/
def respMorning : RecommendationResponse :=
  get_contextual_recommendations searchPopOnly st0 false 8 "T0"
    none [] none (some ⟨some ["pop"], none⟩) (some 5)

/-- The arguments of one record_event call. -/
structure EventCall where
  session_id : String
  event_type : String
  video_id : Option String
  timestamp? : Option String
  user_id : Option String
  now : String
  fresh_event_id : String

/-- Fold a sequence of record_event calls over the store. -/
def apply_events (st : RedisState) : List EventCall → RedisState
  | [] => st
  | c :: rest =>
    apply_events
      (record_event st c.session_id c.event_type c.video_id c.timestamp?
        c.user_id c.now c.fresh_event_id).1 rest

def playCall : EventCall := ⟨"s1", "play", some "abc123", some "t1", some "u1", "T0", "e1"⟩

/-- The store after record_event(session s1, play, track abc123, user u1). -/
def stAfterPlay : RedisState :=
  (record_event st0 "s1" "play" (some "abc123") (some "t1") (some "u1") "T0" "e1").1

/-- The manifest generated for u1 right after the play event, with a
catalog that has three generic hits. -/
def manifestScenario : CacheManifestResponse :=
  generate_manifest searchHits stAfterPlay false false 13 "T0" 1000 (some "u1")

/-! ### Stable sort lemmas -/

theorem mem_sinsert {le : α → α → Bool} {x z : α} {l : List α} :
    z ∈ sinsert le x l ↔ z = x ∨ z ∈ l := by
  induction l with
  | nil => simp [sinsert]
  | cons y ys ih =>
    cases hxy : le x y
    · simp only [sinsert, hxy]
      simp only [Bool.false_eq_true, if_false, List.mem_cons, ih]
      tauto
    · simp only [sinsert, hxy, if_true, List.mem_cons]

theorem sinsert_perm (le : α → α → Bool) (x : α) (l : List α) :
    List.Perm (sinsert le x l) (x :: l) := by
  induction l with
  | nil => simp [sinsert]
  | cons y ys ih =>
    cases hxy : le x y
    · simp only [sinsert, hxy, Bool.false_eq_true, if_false]
      exact (ih.cons y).trans (List.Perm.swap x y ys)
    · simp [sinsert, hxy]

theorem ssort_perm (le : α → α → Bool) (l : List α) :
    List.Perm (ssort le l) l := by
  induction l with
  | nil => exact List.Perm.refl []
  | cons x xs ih => exact (sinsert_perm le x (ssort le xs)).trans (ih.cons x)

theorem sinsert_pairwise {le : α → α → Bool}
    (htrans : ∀ a b c, le a b = true → le b c = true → le a c = true)
    (htotal : ∀ a b, le a b = true ∨ le b a = true)
    (x : α) {l : List α} (h : l.Pairwise (fun a b => le a b = true)) :
    (sinsert le x l).Pairwise (fun a b => le a b = true) := by
  induction l with
  | nil => simp [sinsert]
  | cons y ys ih =>
    rcases List.pairwise_cons.mp h with ⟨hy, hys⟩
    cases hxy : le x y
    · simp only [sinsert, hxy, Bool.false_eq_true, if_false]
      refine List.pairwise_cons.mpr ⟨?_, ih hys⟩
      intro z hz
      rcases mem_sinsert.mp hz with hzx | hz
      · rcases htotal x y with h1 | h1
        · rw [h1] at hxy
          exact absurd hxy (by simp)
        · rw [hzx]
          exact h1
      · exact hy z hz
    · simp only [sinsert, hxy, if_true]
      refine List.pairwise_cons.mpr ⟨?_, h⟩
      intro z hz
      rcases List.mem_cons.mp hz with hzy | hz
      · rw [hzy]
        exact hxy
      · exact htrans x y z hxy (hy z hz)

theorem ssort_pairwise {le : α → α → Bool}
    (htrans : ∀ a b c, le a b = true → le b c = true → le a c = true)
    (htotal : ∀ a b, le a b = true ∨ le b a = true) (l : List α) :
    (ssort le l).Pairwise (fun a b => le a b = true) := by
  induction l with
  | nil => exact List.Pairwise.nil
  | cons x xs ih => exact sinsert_pairwise htrans htotal x ih

theorem sinsert_filter_pos {le : α → α → Bool} {p : α → Bool} {x : α}
    (hx : p x = true) (hkey : ∀ y, p y = true → le x y = true) (l : List α) :
    (sinsert le x l).filter p = x :: l.filter p := by
  induction l with
  | nil => simp [sinsert, hx]
  | cons y ys ih =>
    by_cases hxy : le x y = true
    · simp [sinsert, hxy, hx]
    · have hpy : p y = false := by
        cases hpy : p y
        · rfl
        · exact absurd (hkey y hpy) hxy
      simp [sinsert, hxy, hpy, ih]

theorem sinsert_filter_neg {le : α → α → Bool} {p : α → Bool} {x : α}
    (hx : p x = false) (l : List α) :
    (sinsert le x l).filter p = l.filter p := by
  induction l with
  | nil => simp [sinsert, hx]
  | cons y ys ih =>
    by_cases hxy : le x y = true
    · simp [sinsert, hxy, hx]
    · cases hpy : p y
      · simp [sinsert, hxy, hpy, ih]
      · simp [sinsert, hxy, hpy, ih]

theorem ssort_filter_class {le : α → α → Bool} {p : α → Bool}
    (hsel : ∀ x y, p x = true → p y = true → le x y = true) (l : List α) :
    (ssort le l).filter p = l.filter p := by
  induction l with
  | nil => rfl
  | cons x xs ih =>
    cases hx : p x
    · simp only [ssort]
      rw [sinsert_filter_neg hx]
      simp [hx, ih]
    · simp only [ssort]
      rw [sinsert_filter_pos hx (fun y hy => hsel x y hx hy)]
      simp [hx, ih]

theorem scoreLE_trans :
    ∀ a b c, scoreLE a b = true → scoreLE b c = true → scoreLE a c = true := by
  intro a b c hab hbc
  simp only [scoreLE, decide_eq_true_eq] at *
  exact le_trans hbc hab

theorem scoreLE_total : ∀ a b, scoreLE a b = true ∨ scoreLE b a = true := by
  intro a b
  simp only [scoreLE, decide_eq_true_eq]
  exact le_total b.score a.score

theorem countLE_trans :
    ∀ a b c : String × Nat,
      countLE a b = true → countLE b c = true → countLE a c = true := by
  intro a b c hab hbc
  simp only [countLE, decide_eq_true_eq] at *
  exact le_trans hbc hab

theorem countLE_total :
    ∀ a b : String × Nat, countLE a b = true ∨ countLE b a = true := by
  intro a b
  simp only [countLE, decide_eq_true_eq]
  exact le_total b.2 a.2

/-! ### Store helper lemmas -/

theorem safe_set_event_fields (st : RedisState) (k : String) (v : EventData) :
    ((safe_set_event st k v).1).activity = st.activity ∧
    ((safe_set_event st k v).1).available = st.available ∧
    ((safe_set_event st k v).1).activity_ttl = st.activity_ttl := by
  unfold safe_set_event
  split <;> exact ⟨rfl, rfl, rfl⟩

theorem safe_set_session_fields (st : RedisState) (k : String) (v : SessionData) :
    ((safe_set_session st k v).1).activity = st.activity ∧
    ((safe_set_session st k v).1).available = st.available ∧
    ((safe_set_session st k v).1).activity_ttl = st.activity_ttl := by
  unfold safe_set_session
  split <;> exact ⟨rfl, rfl, rfl⟩

theorem update_activity_length (st : RedisState) (u v e t : String) (k : String)
    (h : (st.activity k).length ≤ recent_activity_window) :
    ((update_user_recent_activity st u v e t).activity k).length
      ≤ recent_activity_window := by
  unfold update_user_recent_activity
  split
  · dsimp only
    by_cases hk : k = "recent_activity:" ++ u
    · simp only [setFun, hk, if_true, List.length_take]
      exact min_le_left _ _
    · simp only [setFun, if_neg hk]
      exact h
  · exact h

theorem record_event_activity_length (st : RedisState) (sid etype : String)
    (vid ts uid : Option String) (now eid : String) (k : String)
    (h : (st.activity k).length ≤ recent_activity_window) :
    (((record_event st sid etype vid ts uid now eid).1).activity k).length
      ≤ recent_activity_window := by
  unfold record_event
  dsimp only
  split
  · split
    · split
      · dsimp only
        apply update_activity_length
        rw [(safe_set_session_fields _ _ _).1, (safe_set_event_fields _ _ _).1]
        exact h
      · dsimp only
        apply update_activity_length
        rw [(safe_set_event_fields _ _ _).1]
        exact h
    · split
      · dsimp only
        rw [(safe_set_session_fields _ _ _).1, (safe_set_event_fields _ _ _).1]
        exact h
      · dsimp only
        rw [(safe_set_event_fields _ _ _).1]
        exact h
  · dsimp only
    rw [(safe_set_event_fields _ _ _).1]
    exact h

/-! ### Engine helper lemmas -/

theorem rank_and_label_pairwise (ctx : Context) (ts : List Track) :
    (rank_and_label_tracks ctx ts).Pairwise
      (fun a b : ScoredTrack => b.score ≤ a.score) := by
  have h := ssort_pairwise scoreLE_trans scoreLE_total (ts.map (score_and_label ctx))
  exact h.imp (fun hab => by
    simpa [scoreLE, decide_eq_true_eq] using hab)

theorem mem_rank_and_label {ctx : Context} {ts : List Track} {s : ScoredTrack}
    (h : s ∈ rank_and_label_tracks ctx ts) :
    ∃ t ∈ ts, s = score_and_label ctx t := by
  unfold rank_and_label_tracks at h
  have h2 := (ssort_perm scoreLE (ts.map (score_and_label ctx))).mem_iff.mp h
  rcases List.mem_map.mp h2 with ⟨t, ht, hst⟩
  exact ⟨t, ht, hst.symm⟩

theorem one_le_mkRat_32 : (1 : ℚ) ≤ mkRat 3 2 := by
  rw [Rat.mkRat_eq_div]
  norm_num

theorem one_le_mkRat_65 : (1 : ℚ) ≤ mkRat 6 5 := by
  rw [Rat.mkRat_eq_div]
  norm_num

theorem one_le_mkRat_1310 : (1 : ℚ) ≤ mkRat 13 10 := by
  rw [Rat.mkRat_eq_div]
  norm_num

theorem artist_stage_score (ctx : Context) (t : Track) :
    1 ≤ (artist_stage ctx t).1 := by
  have h32 := one_le_mkRat_32
  unfold artist_stage
  by_cases h1 : (truthyStr ctx.current_artist &&
      strContains t.artists (ctx.current_artist.getD "")) = true <;>
    by_cases h2 : truthyStr ctx.current_artist = true <;>
      by_cases h3 : strContains t.artists (ctx.current_artist.getD "") = true <;>
        simp [h1, h2, h3] <;> nlinarith

theorem artist_stage_label (ctx : Context) (t : Track) :
    (artist_stage ctx t).2 = none ∨
    (artist_stage ctx t).2 = some "More by this artist" ∨
    (artist_stage ctx t).2 = some "Similar artist" := by
  unfold artist_stage
  by_cases h1 : (truthyStr ctx.current_artist &&
      strContains t.artists (ctx.current_artist.getD "")) = true <;>
    by_cases h2 : truthyStr ctx.current_artist = true <;>
      by_cases h3 : strContains t.artists (ctx.current_artist.getD "") = true <;>
        simp [h1, h2, h3]

theorem time_stage_label (ctx : Context) (l : Option String) :
    time_stage ctx l = l ∨ time_stage ctx l = some "Morning vibes" ∨
    time_stage ctx l = some "Evening chill" := by
  unfold time_stage
  by_cases h1 : 6 ≤ ctx.time_of_day ∧ ctx.time_of_day < 12 <;>
    by_cases h2 : 18 ≤ ctx.time_of_day ∧ ctx.time_of_day < 22 <;>
      cases l <;> simp [h1, h2]

theorem punjabi_stage_score (t : Track) (s : ℚ) (l : Option String)
    (h : 1 ≤ s) : 1 ≤ (punjabi_stage t s l).1 := by
  have h65 := one_le_mkRat_65
  unfold punjabi_stage
  by_cases h1 : (strContains (lowerStr t.title) "punjabi" ||
      strContains (lowerStr t.artists) "punjabi") = true <;>
    simp [h1] <;> nlinarith

theorem punjabi_stage_label (t : Track) (s : ℚ) (l : Option String) :
    (punjabi_stage t s l).2 = l ∨ (punjabi_stage t s l).2 = some "Punjabi vibes" := by
  unfold punjabi_stage
  by_cases h1 : (strContains (lowerStr t.title) "punjabi" ||
      strContains (lowerStr t.artists) "punjabi") = true <;>
    cases l <;> simp [h1]

theorem velocity_stage_score (ctx : Context) (t : Track) (s : ℚ)
    (h : 1 ≤ s) : 1 ≤ velocity_stage ctx t s := by
  have h1310 := one_le_mkRat_1310
  unfold velocity_stage
  by_cases h1 : mkRat 7 10 < ctx.skip_velocity <;>
    by_cases h2 : t.duration_seconds < 180 <;>
      simp [h1, h2] <;> nlinarith

theorem score_and_label_score_ge_one (ctx : Context) (t : Track) :
    1 ≤ (score_and_label ctx t).score := by
  exact velocity_stage_score ctx t _
    (punjabi_stage_score t _ _ (artist_stage_score ctx t))

theorem score_and_label_label_mem (ctx : Context) (t : Track) :
    (score_and_label ctx t).label ∈
      ([none, some "More by this artist", some "Similar artist",
        some "Morning vibes", some "Evening chill", some "Punjabi vibes"] :
        List (Option String)) := by
  show (punjabi_stage t (artist_stage ctx t).1
      (time_stage ctx (artist_stage ctx t).2)).2 ∈ _
  rcases punjabi_stage_label t (artist_stage ctx t).1
      (time_stage ctx (artist_stage ctx t).2) with hp | hp
  · rw [hp]
    rcases time_stage_label ctx (artist_stage ctx t).2 with ht | ht | ht
    · rw [ht]
      rcases artist_stage_label ctx t with ha | ha | ha <;> rw [ha] <;> simp
    · rw [ht]
      simp
    · rw [ht]
      simp
  · rw [hp]
    simp

theorem recommend_raised_eq (search : SearchFun) (st : RedisState) (hour : Nat)
    (now : String) (ct : Option CurrentTrackInfo) (ra : List Activity)
    (uid : Option String) (tp : Option TasteProfile) (lim : Option Nat) :
    get_contextual_recommendations search st true hour now ct ra uid tp lim =
      { tracks := [], labels := [], context := [], generated_at := now } := rfl

theorem recommend_not_raised_eq (search : SearchFun) (st : RedisState)
    (hour : Nat) (now : String) (ct : Option CurrentTrackInfo)
    (ra : List Activity) (uid : Option String) (tp : Option TasteProfile)
    (lim : Option Nat) :
    get_contextual_recommendations search st false hour now ct ra uid tp lim =
      recommend_body search st hour now ct ra uid tp
        (lim.getD recommendation_limit) := rfl

theorem recommend_body_tracks (search : SearchFun) (st : RedisState)
    (hour : Nat) (now : String) (ct : Option CurrentTrackInfo)
    (ra : List Activity) (uid : Option String) (tp : Option TasteProfile)
    (limit : Nat) :
    (recommend_body search st hour now ct ra uid tp limit).tracks =
      (rank_and_label_tracks (recommend_ctx st hour ct ra uid tp)
        (generate_recommendations search (recommend_ctx st hour ct ra uid tp)
          limit)).take limit := rfl

theorem recommend_tracks_length_le (search : SearchFun) (st : RedisState)
    (raised : Bool) (hour : Nat) (now : String)
    (ct : Option CurrentTrackInfo) (ra : List Activity)
    (uid : Option String) (tp : Option TasteProfile) (lim : Option Nat) :
    (get_contextual_recommendations search st raised hour now ct ra uid tp lim).tracks.length
      ≤ lim.getD recommendation_limit := by
  cases raised
  · rw [recommend_not_raised_eq, recommend_body_tracks]
    exact List.length_take_le _ _
  · rw [recommend_raised_eq]
    exact Nat.zero_le _

theorem recommend_tracks_bounds (search : SearchFun) (st : RedisState)
    (raised : Bool) (hour : Nat) (now : String)
    (ct : Option CurrentTrackInfo) (ra : List Activity)
    (uid : Option String) (tp : Option TasteProfile) (lim : Option Nat) :
    ∀ s ∈ (get_contextual_recommendations search st raised hour now ct ra uid tp lim).tracks,
      1 ≤ s.score ∧
      s.label ∈
        ([none, some "More by this artist", some "Similar artist",
          some "Morning vibes", some "Evening chill", some "Punjabi vibes"] :
          List (Option String)) := by
  cases raised
  · intro s hs
    rw [recommend_not_raised_eq, recommend_body_tracks] at hs
    have hs2 := List.mem_of_mem_take hs
    rcases mem_rank_and_label hs2 with ⟨t, _, hst⟩
    rw [hst]
    exact ⟨score_and_label_score_ge_one _ t, score_and_label_label_mem _ t⟩
  · intro s hs
    rw [recommend_raised_eq] at hs
    simp at hs

theorem manifest_expires_lower (search : SearchFun) (st : RedisState)
    (raised engineRaised : Bool) (hour : Nat) (nowStr : String) (now : Nat)
    (uid : Option String) :
    now < (generate_manifest search st raised engineRaised hour nowStr now uid).expires_at := by
  cases raised <;> simp [generate_manifest, cache_prediction_hours]

theorem record_event_state_char (st : RedisState) (sid etype : String)
    (vid ts uid : Option String) (now eid : String)
    (hav : st.available = true) :
    ∃ st2 : RedisState,
      (record_event st sid etype vid ts uid now eid).1 =
        (if (truthyStr uid && truthyStr vid &&
              (etype == "play" || etype == "skip")) = true then
          update_user_recent_activity st2 (uid.getD "") (vid.getD "") etype
            (ts.getD now)
         else st2) ∧
      st2.activity = st.activity ∧ st2.activity_ttl = st.activity_ttl ∧
      st2.available = true := by
  have hsucc : (safe_set_event st ("event:" ++ sid ++ ":" ++ eid)
      { session_id := sid, event_type := etype, video_id := vid
        timestamp := ts.getD now, user_id := uid }).2 = true := by
    simp [safe_set_event, hav]
  unfold record_event
  dsimp only
  rw [hsucc]
  refine ⟨_, rfl, ?_, ?_, ?_⟩
  · split
    · rw [(safe_set_session_fields _ _ _).1, (safe_set_event_fields _ _ _).1]
    · rw [(safe_set_event_fields _ _ _).1]
  · split
    · rw [(safe_set_session_fields _ _ _).2.2, (safe_set_event_fields _ _ _).2.2]
    · rw [(safe_set_event_fields _ _ _).2.2]
  · split
    · rw [(safe_set_session_fields _ _ _).2.1, (safe_set_event_fields _ _ _).2.1]
      exact hav
    · rw [(safe_set_event_fields _ _ _).2.1]
      exact hav

/-! ### Claim theorems -/

/-- Claim C10: calculate_skip_velocity returns 0 when the activity list
has fewer than 3 entries or when the last 10 entries contain no play and
no skip events; otherwise it returns skips divided by skips plus plays
over the last 10 entries; the result always lies in the interval [0, 1],
the function is total, and the zero-total guard rules out division by
zero. -/
theorem claim_C10_theorem (ra : List Activity) :
    (ra.length < 3 → calculate_skip_velocity ra = 0) ∧
    (((lastN 10 ra).filter (fun e => e.event_type == "skip")).length +
       ((lastN 10 ra).filter (fun e => e.event_type == "play")).length = 0 →
      calculate_skip_velocity ra = 0) ∧
    (3 ≤ ra.length →
      0 < ((lastN 10 ra).filter (fun e => e.event_type == "skip")).length +
          ((lastN 10 ra).filter (fun e => e.event_type == "play")).length →
      calculate_skip_velocity ra =
        (((lastN 10 ra).filter (fun e => e.event_type == "skip")).length : ℚ) /
          ((((lastN 10 ra).filter (fun e => e.event_type == "skip")).length +
            ((lastN 10 ra).filter (fun e => e.event_type == "play")).length :
            Nat) : ℚ)) ∧
    0 ≤ calculate_skip_velocity ra ∧ calculate_skip_velocity ra ≤ 1 := by
  set sk := ((lastN 10 ra).filter (fun e => e.event_type == "skip")).length with hsk
  set pl := ((lastN 10 ra).filter (fun e => e.event_type == "play")).length with hpl
  have hval : calculate_skip_velocity ra =
      if ra.length < 3 then 0
      else if sk + pl = 0 then 0 else (sk : ℚ) / ((sk + pl : Nat) : ℚ) := rfl
  refine ⟨?_, ?_, ?_, ?_, ?_⟩
  · intro h
    rw [hval, if_pos h]
  · intro h0
    rw [hval]
    by_cases h3 : ra.length < 3
    · rw [if_pos h3]
    · rw [if_neg h3, if_pos h0]
  · intro h3 hpos
    rw [hval, if_neg (by omega), if_neg (by omega)]
  · rw [hval]
    by_cases h3 : ra.length < 3
    · rw [if_pos h3]
    · rw [if_neg h3]
      by_cases h0 : sk + pl = 0
      · rw [if_pos h0]
      · rw [if_neg h0]
        positivity
  · rw [hval]
    by_cases h3 : ra.length < 3
    · rw [if_pos h3]
      norm_num
    · rw [if_neg h3]
      by_cases h0 : sk + pl = 0
      · rw [if_pos h0]
        norm_num
      · rw [if_neg h0]
        have hd : (0 : ℚ) < ((sk + pl : Nat) : ℚ) := by
          exact_mod_cast Nat.pos_of_ne_zero h0
        rw [div_le_one hd]
        exact_mod_cast Nat.le_add_right sk pl

/-- Claim C10 witness: the skip velocity of the empty activity list is 0
and lies in [0, 1]. -/
theorem claim_C10_witness :
    calculate_skip_velocity [] = 0 ∧
    0 ≤ calculate_skip_velocity ([] : List Activity) ∧
    calculate_skip_velocity ([] : List Activity) ≤ 1 :=
  ⟨(claim_C10_theorem []).1 (by decide),
   (claim_C10_theorem []).2.2.2.1,
   (claim_C10_theorem []).2.2.2.2⟩

/-- Claim C7: every generate result has expires_at strictly after the
call time: at most one hour ahead when the whole generation raised
(total failure) and at most 24 hours ahead otherwise; the function is
total, so the call itself never raises. -/
theorem claim_C7_theorem (search : SearchFun) (st : RedisState)
    (raised engineRaised : Bool) (hour : Nat) (nowStr : String) (now : Nat)
    (uid : Option String) :
    now < (generate_manifest search st raised engineRaised hour nowStr now uid).expires_at ∧
    (raised = true →
      (generate_manifest search st raised engineRaised hour nowStr now uid).expires_at
        ≤ now + 3600) ∧
    (raised = false →
      (generate_manifest search st raised engineRaised hour nowStr now uid).expires_at
        ≤ now + 24 * 3600) := by
  refine ⟨manifest_expires_lower search st raised engineRaised hour nowStr now uid, ?_, ?_⟩
  · intro hr
    subst hr
    exact Nat.le_refl _
  · intro hr
    subst hr
    exact Nat.le_refl _

/-- Claim C7 witness: at generation time 1000 with an injected total
failure, expires_at is after 1000 and at most one hour ahead. -/
theorem claim_C7_witness :
    1000 < (generate_manifest emptySearch st0 true false 13 "T0" 1000 none).expires_at ∧
    (generate_manifest emptySearch st0 true false 13 "T0" 1000 none).expires_at
      ≤ 1000 + 3600 :=
  ⟨(claim_C7_theorem emptySearch st0 true false 13 "T0" 1000 none).1,
   (claim_C7_theorem emptySearch st0 true false 13 "T0" 1000 none).2.1 rfl⟩

/-- Claim C5: a recent-activity list never holds more than the
configured capacity of 50 entries: starting from any store whose lists
satisfy the bound, every sequence of record_event calls preserves it,
because every push is immediately followed by a trim to the capacity. -/
theorem claim_C5_theorem (calls : List EventCall) (st : RedisState)
    (h : ∀ k, (st.activity k).length ≤ recent_activity_window) :
    ∀ k, ((apply_events st calls).activity k).length ≤ recent_activity_window := by
  induction calls generalizing st with
  | nil => exact h
  | cons c rest ih =>
    exact ih _ (fun k =>
      record_event_activity_length st c.session_id c.event_type c.video_id
        c.timestamp? c.user_id c.now c.fresh_event_id k (h k))

/-- Claim C5 witness: after one play event on the empty store the
activity list of u1 respects the capacity. -/
theorem claim_C5_witness :
    ((apply_events st0 [playCall]).activity "recent_activity:u1").length
      ≤ recent_activity_window :=
  claim_C5_theorem [playCall] st0 (fun _ => Nat.zero_le _) "recent_activity:u1"

/-- Claim C9 counterexample: a like event carrying both a track id and a
user id does not push any summary onto the recent-activity list; the
list stays empty, refuting the claim that every track-bearing event type
is pushed. -/
theorem claim_C9_counterexample :
    ((record_event st0 "s1" "like" (some "v1") (some "t1") (some "u1") "T0" "e1").1).activity
        "recent_activity:u1" = [] ∧
    EncodedItem.act { video_id := some "v1", event_type := "like", timestamp := "t1" } ∉
      ((record_event st0 "s1" "like" (some "v1") (some "t1") (some "u1") "T0" "e1").1).activity
        "recent_activity:u1" := by
  exact ⟨by decide, by decide⟩

/-- Claim C9 (amended): only play and skip events that carry a truthy
user id and track id push the compact summary {track_id, event_type,
timestamp} onto the recent-activity list, with trim-after-push to the
capacity and the TTL refreshed, and only when the event-store write
succeeded; an event of any other type leaves every recent-activity list
unchanged. -/
theorem claim_C9_theorem (st : RedisState) (sid etype : String)
    (vid ts uid : Option String) (now eid : String)
    (hav : st.available = true) (hu : truthyStr uid = true)
    (hv : truthyStr vid = true) (het : etype = "play" ∨ etype = "skip") :
    ((record_event st sid etype vid ts uid now eid).1).activity
        ("recent_activity:" ++ uid.getD "") =
      (EncodedItem.act
          { video_id := some (vid.getD ""), event_type := etype
            timestamp := ts.getD now }
        :: st.activity ("recent_activity:" ++ uid.getD "")).take
        recent_activity_window ∧
    ((record_event st sid etype vid ts uid now eid).1).activity_ttl
        ("recent_activity:" ++ uid.getD "") = some event_ttl ∧
    (∀ etype2, etype2 ≠ "play" → etype2 ≠ "skip" →
      ((record_event st sid etype2 vid ts uid now eid).1).activity =
        st.activity) := by
  obtain ⟨st2, heq, hact, httl, hav2⟩ :=
    record_event_state_char st sid etype vid ts uid now eid hav
  have hg : (truthyStr uid && truthyStr vid &&
      (etype == "play" || etype == "skip")) = true := by
    rcases het with rfl | rfl <;> simp [hu, hv]
  refine ⟨?_, ?_, ?_⟩
  · rw [heq, if_pos hg]
    unfold update_user_recent_activity
    rw [if_pos hav2]
    dsimp only
    simp [setFun, hact]
  · rw [heq, if_pos hg]
    unfold update_user_recent_activity
    rw [if_pos hav2]
    dsimp only
    simp [setFun, httl]
  · intro etype2 h2p h2s
    obtain ⟨st2b, heqb, hactb, _, _⟩ :=
      record_event_state_char st sid etype2 vid ts uid now eid hav
    have hgb : (truthyStr uid && truthyStr vid &&
        (etype2 == "play" || etype2 == "skip")) = false := by
      simp [h2p, h2s]
    rw [heqb, hgb]
    simp [hactb]

/-- Claim C9 witness: a play event with track and user on the reachable
empty store pushes exactly the compact summary. -/
theorem claim_C9_witness :
    ((record_event st0 "s1" "play" (some "abc123") (some "t1") (some "u1") "T0" "e1").1).activity
        ("recent_activity:" ++ (some "u1").getD "") =
      (EncodedItem.act
          { video_id := some ((some "abc123").getD ""), event_type := "play"
            timestamp := (some "t1").getD "T0" }
        :: st0.activity ("recent_activity:" ++ (some "u1").getD "")).take
        recent_activity_window :=
  (claim_C9_theorem st0 "s1" "play" (some "abc123") (some "t1") (some "u1")
    "T0" "e1" rfl (by decide) (by decide) (Or.inl rfl)).1

/-- Claim C3 counterexample: with the Volatile Store unreachable,
record_event returns False, not success, to its caller. -/
theorem claim_C3_counterexample :
    (record_event stDown "s1" "play" (some "v1") none (some "u1") "T0" "e1").2 = false ∧
    (record_event stDown "s1" "play" (some "v1") none (some "u1") "T0" "e1").2 ≠ true := by
  exact ⟨by decide, by decide⟩

/-- Claim C3 (amended): when the Volatile Store is unreachable for every
access attempt, start_session still returns the generated session id,
recommend and generate still return well-formed (possibly generic or
empty) results, and no exception propagates (every modelled operation is
total); record_event, however, reports failure (False) to its caller
rather than success. -/
theorem claim_C3_theorem (st : RedisState) (hdown : st.available = false)
    (fresh : String) (user_id device location : Option String)
    (nowS : String) (sid etype : String) (vid ts uid : Option String)
    (eid : String) (search : SearchFun) (raised engineRaised : Bool)
    (hour : Nat) (ct : Option CurrentTrackInfo) (ra : List Activity)
    (uid2 : Option String) (tp : Option TasteProfile) (lim : Option Nat)
    (mnow : Nat) (muid : Option String) :
    (start_session st fresh user_id device location nowS).2 = fresh ∧
    (record_event st sid etype vid ts uid nowS eid).2 = false ∧
    (get_contextual_recommendations search st raised hour nowS ct ra uid2 tp lim).tracks.length
      ≤ lim.getD recommendation_limit ∧
    mnow < (generate_manifest search st raised engineRaised hour nowS mnow muid).expires_at := by
  refine ⟨rfl, ?_,
    recommend_tracks_length_le search st raised hour nowS ct ra uid2 tp lim,
    manifest_expires_lower search st raised engineRaised hour nowS mnow muid⟩
  have hs : (safe_set_event st ("event:" ++ sid ++ ":" ++ eid)
      { session_id := sid, event_type := etype, video_id := vid
        timestamp := ts.getD nowS, user_id := uid }).2 = false := by
    simp [safe_set_event, hdown]
  unfold record_event
  dsimp only
  rw [hs]
  simp

/-- Claim C3 witness: the amended behaviour at a concrete unreachable
store. -/
theorem claim_C3_witness :
    (start_session stDown "sid1" none none none "T0").2 = "sid1" ∧
    (record_event stDown "s1" "play" (some "v1") none (some "u1") "T0" "e1").2 = false ∧
    (get_contextual_recommendations emptySearch stDown false 13 "T0" none []
        none none (some 5)).tracks.length ≤ (some 5).getD recommendation_limit ∧
    1000 < (generate_manifest emptySearch stDown false false 13 "T0" 1000 none).expires_at :=
  claim_C3_theorem stDown rfl "sid1" none none none "T0" "s1" "play"
    (some "v1") none (some "u1") "e1" emptySearch false false 13 none []
    none none (some 5) 1000 none

/-- Claim C1 counterexample: at a concrete request the engine returns
two tracks, both unlabeled and both with score 1: rank 0 is not labeled
"Top Pick", rank 1 is not labeled "Trending", and the rank-1 score is 1
rather than 1 - 0.05 * 1. -/
theorem claim_C1_counterexample :
    respAfternoon.tracks.map (fun s => s.label) = [none, none] ∧
    respAfternoon.tracks.map (fun s => s.score) = [1, 1] ∧
    some "Top Pick" ∉ respAfternoon.tracks.map (fun s => s.label) ∧
    some "Trending" ∉ respAfternoon.tracks.map (fun s => s.label) ∧
    (1 : ℚ) ≠ 1 - mkRat 5 100 * 1 := by
  refine ⟨by decide, by decide, by decide, by decide, ?_⟩
  rw [Rat.mkRat_eq_div]
  norm_num

/-- Claim C1 (amended): the recommendation call is total (never raises)
and returns at most limit tracks, but labels and scores are
context-based rather than rank-based: every label is one of None,
"More by this artist", "Similar artist", "Morning vibes",
"Evening chill", "Punjabi vibes", and every score is a product of
boosts starting at 1.0, hence at least 1 — not 1.0 - 0.05 * rank. -/
theorem claim_C1_theorem (search : SearchFun) (st : RedisState)
    (raised : Bool) (hour : Nat) (now : String)
    (ct : Option CurrentTrackInfo) (ra : List Activity)
    (uid : Option String) (tp : Option TasteProfile) (lim : Option Nat) :
    (get_contextual_recommendations search st raised hour now ct ra uid tp lim).tracks.length
      ≤ lim.getD recommendation_limit ∧
    ∀ s ∈ (get_contextual_recommendations search st raised hour now ct ra uid tp lim).tracks,
      1 ≤ s.score ∧
      s.label ∈ ([none, some "More by this artist", some "Similar artist",
        some "Morning vibes", some "Evening chill", some "Punjabi vibes"] :
        List (Option String)) :=
  ⟨recommend_tracks_length_le search st raised hour now ct ra uid tp lim,
   recommend_tracks_bounds search st raised hour now ct ra uid tp lim⟩

/-- Claim C1 witness: the amended bounds at the concrete afternoon run
and its first returned track. -/
theorem claim_C1_witness :
    respAfternoon.tracks.length ≤ (some 5).getD recommendation_limit ∧
    (1 ≤ (ScoredTrack.mk tA 1 none).score ∧
      (ScoredTrack.mk tA 1 none).label ∈
        ([none, some "More by this artist", some "Similar artist",
          some "Morning vibes", some "Evening chill", some "Punjabi vibes"] :
          List (Option String))) :=
  ⟨(claim_C1_theorem searchPop st0 false 13 "T0" none [] none
      (some ⟨some ["pop"], none⟩) (some 5)).1,
   (claim_C1_theorem searchPop st0 false 13 "T0" none [] none
      (some ⟨some ["pop"], none⟩) (some 5)).2
     (ScoredTrack.mk tA 1 none) (by decide)⟩

/-- Claim C2: _rank_and_label_tracks sorts by non-increasing score;
tracks with equal scores keep their pre-sort relative order (for every
score value, filtering the output by that score gives exactly the
filtered pre-sort list); and the track list of every recommendation
response is sorted by non-increasing score. -/
theorem claim_C2_theorem (ctx : Context) (tracks : List Track) (q : ℚ)
    (search : SearchFun) (st : RedisState) (raised : Bool) (hour : Nat)
    (now : String) (ct : Option CurrentTrackInfo) (ra : List Activity)
    (uid : Option String) (tp : Option TasteProfile) (lim : Option Nat) :
    (rank_and_label_tracks ctx tracks).Pairwise
      (fun a b : ScoredTrack => b.score ≤ a.score) ∧
    (rank_and_label_tracks ctx tracks).filter (fun s => decide (s.score = q)) =
      (tracks.map (score_and_label ctx)).filter (fun s => decide (s.score = q)) ∧
    (get_contextual_recommendations search st raised hour now ct ra uid tp lim).tracks.Pairwise
      (fun a b : ScoredTrack => b.score ≤ a.score) := by
  refine ⟨rank_and_label_pairwise ctx tracks, ?_, ?_⟩
  · unfold rank_and_label_tracks
    refine ssort_filter_class ?_ _
    intro x y hx hy
    simp only [decide_eq_true_eq] at hx hy
    simp [scoreLE, hx, hy]
  · cases raised
    · rw [recommend_not_raised_eq, recommend_body_tracks]
      exact List.Pairwise.sublist (List.take_sublist _ _)
        (rank_and_label_pairwise _ _)
    · rw [recommend_raised_eq]
      exact List.Pairwise.nil

/-- Claim C4 counterexample: on an injected total failure the engine
returns the empty track list together with an EMPTY context dict: it
carries no intent key and no source key at all, refuting intent neutral
and candidate source error. -/
theorem claim_C4_counterexample :
    respRaised.tracks = [] ∧ respRaised.context = [] ∧
    respRaised.context.lookup "intent" = none ∧
    respRaised.context.lookup "source" = none ∧
    ¬ (respRaised.context.lookup "intent" = some (CtxVal.str "neutral") ∧
       respRaised.context.lookup "source" = some (CtxVal.str "error")) := by
  exact ⟨rfl, rfl, rfl, rfl, by decide⟩

theorem generate_recommendations_empty (search : SearchFun) (ctx : Context)
    (limit : Nat) (hsearch : ∀ q n, search q n = []) :
    generate_recommendations search ctx limit = [] := by
  have h1 : ∀ (l : List String) (acc : List Track),
      l.foldl (fun acc artist => dedupAppend acc (search artist 5)) acc = acc := by
    intro l
    induction l with
    | nil => intro acc; rfl
    | cons x xs ih =>
      intro acc
      show xs.foldl _ (dedupAppend acc (search x 5)) = acc
      rw [hsearch]
      exact ih acc
  have h2 : ∀ (n : Nat) (l : List String) (acc : List Track),
      l.foldl (fun acc g => acc ++ get_genre_based_recommendations search g n) acc = acc := by
    intro n l
    induction l with
    | nil => intro acc; rfl
    | cons x xs ih =>
      intro acc
      have ha : acc ++ get_genre_based_recommendations search x n = acc := by
        simp [get_genre_based_recommendations, hsearch]
      show xs.foldl _ (acc ++ get_genre_based_recommendations search x n) = acc
      rw [ha]
      exact ih acc
  have h3 : ∀ hr lim2, get_time_based_recommendations search hr lim2 = [] := by
    intro hr lim2
    unfold get_time_based_recommendations
    dsimp only
    rw [h2]
    exact List.take_nil
  unfold generate_recommendations
  dsimp only
  rw [h3, List.append_nil]
  have hT1 : (if truthyStr ctx.current_artist = true then
      List.foldl (fun acc artist => dedupAppend acc (search artist 5)) []
        (List.take 3 (get_similar_artists (ctx.current_artist.getD "")))
     else []) = [] := by
    split
    · exact h1 _ []
    · rfl
  rw [hT1]
  have hT12 : (if ctx.genres.isEmpty = true then ([] : List Track)
      else List.foldl (fun acc g => acc ++ get_genre_based_recommendations search g 5) []
        (List.take 2 ctx.genres)) = [] := by
    split
    · rfl
    · exact h2 5 _ []
  rw [hT12, hsearch]
  simp

/-- Claim C4 (amended): on total failure recommend still returns a
well-formed result and never raises (the call is total), but the
surviving context is the EMPTY dict rather than intent neutral with
candidate source error: an exception inside the try block yields the
empty response with empty context, and an empty answer from every
catalog query yields an empty track list. -/
theorem claim_C4_theorem (search : SearchFun) (st : RedisState)
    (hour : Nat) (now : String) (ct : Option CurrentTrackInfo)
    (ra : List Activity) (uid : Option String) (tp : Option TasteProfile)
    (lim : Option Nat) (hsearch : ∀ q n, search q n = []) :
    get_contextual_recommendations search st true hour now ct ra uid tp lim =
      { tracks := [], labels := [], context := [], generated_at := now } ∧
    (get_contextual_recommendations search st false hour now ct ra uid tp lim).tracks = [] := by
  refine ⟨recommend_raised_eq search st hour now ct ra uid tp lim, ?_⟩
  rw [recommend_not_raised_eq, recommend_body_tracks,
    generate_recommendations_empty search _ _ hsearch]
  simp [rank_and_label_tracks, ssort]

/-- Claim C4 witness: the amended behaviour at a concrete catalog that
finds nothing. -/
theorem claim_C4_witness :
    get_contextual_recommendations emptySearch st0 true 13 "T0" none [] none
        none (some 5) =
      { tracks := [], labels := [], context := [], generated_at := "T0" } ∧
    (get_contextual_recommendations emptySearch st0 false 13 "T0" none []
        none none (some 5)).tracks = [] :=
  claim_C4_theorem emptySearch st0 13 "T0" none [] none none (some 5)
    (fun _ _ => rfl)

/-- Claim C6: the personalised must_cache ranks tracks by non-increasing
play count over the recent-activity window (the sorted count list is
ordered by count), and in the concrete scenario — record_event(session
s1, play, track abc123, user u1) followed by generate(user u1) with
fewer than 3 other qualifying tracks — "abc123" appears in must_cache,
padded by the first three globally popular tracks. -/
theorem claim_C6_theorem :
    (∀ items : List EncodedItem,
      (ssort countLE (count_plays items)).Pairwise
        (fun a b : String × Nat => b.2 ≤ a.2)) ∧
    manifestScenario.must_cache.map CacheTrack.vid = ["abc123", "g1", "g2", "g3"] ∧
    "abc123" ∈ manifestScenario.must_cache.map CacheTrack.vid := by
  refine ⟨?_, by decide, by decide⟩
  intro items
  exact (ssort_pairwise countLE_trans countLE_total (count_plays items)).imp
    (fun hab => by simpa [countLE, decide_eq_true_eq] using hab)

/-- Claim C8 counterexample: the genre tier and the morning time tier
both issue the query "pop music"; the same track enters the candidate
list twice and the final output repeats the track id vidA, so duplicate
track ids are NOT removed before final output. -/
theorem claim_C8_counterexample :
    respMorning.tracks.map (fun s => s.track.videoId) = ["vidA", "vidA"] ∧
    ¬ (respMorning.tracks.map (fun s => s.track.videoId)).Nodup := by
  exact ⟨by decide, by decide⟩

/-- Claim C8 (amended): duplicate suppression exists only inside the
similar-artist tier and the generic must-cache loop, which append a
track only when an identical record is not yet present — that
accumulator stays duplicate-free; the later tiers append with no
deduplication, so the final output can repeat a track id. -/
theorem claim_C8_theorem (acc new : List Track) (h : acc.Nodup) :
    (dedupAppend acc new).Nodup := by
  induction new generalizing acc with
  | nil => exact h
  | cons t ts ih =>
    have h2 : (if t ∈ acc then acc else acc ++ [t]).Nodup := by
      split
      · exact h
      · rename_i hmem
        simp [List.nodup_append, h, hmem]
    exact ih _ h2

/-- Claim C8 witness: the guarded accumulator at a concrete duplicated
input stays duplicate-free. -/
theorem claim_C8_witness : (dedupAppend [] [tA, tA]).Nodup :=
  claim_C8_theorem [] [tA, tA] List.Pairwise.nil

end Aureum
